import Mathlib

/- A shallow embedding of the GisMapDynamic map component and its helpers:
the memoized cluster-marker style function, the cluster overlay pipeline,
the clip (boundary mask) pipeline, the legend builder and the identify
interaction. Stateful React/OpenLayers code is modelled as explicit state
passing over plain Lean structures; JavaScript numbers appearing here
(marker radii) are exact in binary floating point for the relevant range,
so they are modelled as rationals. Each specified property is then stated
and settled as a theorem about these definitions. -/

namespace GisMap

/-- Name property of the cluster overlay layer. -/
def clusterLayerName : String := "cluster-layer"

/-- Name of the base layer gating the cluster pipeline. -/
def birthLayerName : String := "Hospital Birth"

/-- Name property of the clip outline layer. -/
def boundaryLayerName : String := "navigation-boundary"

/-- Warning text emitted when the identify fetch returns no record. -/
def noDataMsg : String := "No data found for the selected point."

/-- First default exempt layer name. -/
def aerialName : String := "Aerial"

/-- Second default exempt layer name. -/
def googleName : String := "Google"

/-- Default exemption list for the clip mask (skipClipLayerNames). -/
def defaultSkipClipLayerNames : List String := [aerialName, googleName]

/-- RGB triple used for clusters with more than 25 members. -/
def colorRed : String := "192,0,0"

/-- RGB triple used for clusters with more than 8 (and at most 25) members. -/
def colorOrange : String := "255,128,0"

/-- RGB triple used for clusters with at most 8 members. -/
def colorGreen : String := "0,128,0"

/-- The observable fields of the style built by makeClusterStyle: marker
radius, fill/stroke RGB triple and the centered count text. The dashed
ring pattern is a fixed function of the radius (seven segments of length
2*pi*radius/6 with the first forced to 0) and is determined by the radius
field, so it is not repeated here. -/
structure MarkerStyle where
  radius : Rat
  color : String
  text : String
deriving DecidableEq

/-- Color selection from makeClusterStyle:
size > 25 red, size > 8 orange, otherwise green. -/
def clusterColor (size : Nat) : String :=
  if size > 25 then colorRed else if size > 8 then colorOrange else colorGreen

/-- Radius from makeClusterStyle: Math.max(8, Math.min(size * 0.75, 20)).
For the counts where the clamp is not already saturated the product
size * 0.75 is exact in double precision, so rational arithmetic is a
faithful model. -/
def clusterRadius (size : Nat) : Rat :=
  max 8 (min ((size : Rat) * (3 / 4)) 20)

/-- The style object makeClusterStyle constructs on a cache miss. -/
def computeStyle (size : Nat) : MarkerStyle :=
  { radius := clusterRadius size, color := clusterColor size, text := toString size }

/-- Reading feature.get "features" then [0] then get "count": a cluster
feature is modelled by the list of its members' count properties (a member
without a count property is a none entry). -/
def firstMemberCount (memberCounts : List (Option Nat)) : Option Nat :=
  memberCounts.head?.bind (fun c => c)

/-- makeClusterStyle: looks up the first member's count; a missing or zero
count (JavaScript falsy) yields no style; otherwise the style is served
from the cache keyed by String(size), computing and storing it on a miss.
The mutable module-level styleCache is passed explicitly. -/
def makeClusterStyle (cache : List (String × MarkerStyle))
    (memberCounts : List (Option Nat)) :
    Option MarkerStyle × List (String × MarkerStyle) :=
  match firstMemberCount memberCounts with
  | none => (none, cache)
  | some size =>
    if size = 0 then (none, cache)
    else
      match cache.lookup (toString size) with
      | some st => (some st, cache)
      | none => (some (computeStyle size), (toString size, computeStyle size) :: cache)

/-- C2: for every count N at least 1, the style returned for a cluster
whose first member carries count N has radius clamp(0.75*N, 8, 20) and a
color bucket that is green on (0,8], orange on (8,25] and red above 25. -/
theorem makeClusterStyle_radius_color (N : Nat) (h : 1 ≤ N) :
    (makeClusterStyle [] [some N]).1 = some (computeStyle N) ∧
    (computeStyle N).radius = max 8 (min ((N : Rat) * (3 / 4)) 20) ∧
    (computeStyle N).color =
      (if N ≤ 8 then colorGreen else if N ≤ 25 then colorOrange else colorRed) := by
  refine ⟨?_, rfl, ?_⟩
  · have hz : N ≠ 0 := by omega
    simp [makeClusterStyle, firstMemberCount, hz, List.lookup]
  · unfold computeStyle clusterColor
    split_ifs <;> first | rfl | omega

/-- Witness for C2 at the boundary count 9 (first orange value). -/
theorem makeClusterStyle_radius_color_witness :
    1 ≤ 9 ∧
    ((makeClusterStyle [] [some 9]).1 = some (computeStyle 9) ∧
     (computeStyle 9).radius = max 8 (min (((9 : Nat) : Rat) * (3 / 4)) 20) ∧
     (computeStyle 9).color =
       (if (9 : Nat) ≤ 8 then colorGreen else
        if (9 : Nat) ≤ 25 then colorOrange else colorRed)) :=
  ⟨by decide, makeClusterStyle_radius_color 9 (by decide)⟩

/-- C8: makeClusterStyle is a pure memoized function of the first member's
count: a second call on the same feature returns the identical result and
leaves the cache unchanged; for a truthy count the returned style is
exactly the cache entry stored under String(count); and an entry already
present in the cache is never overwritten by a call. -/
theorem makeClusterStyle_memoized (cache : List (String × MarkerStyle))
    (memberCounts : List (Option Nat)) :
    makeClusterStyle (makeClusterStyle cache memberCounts).2 memberCounts =
      makeClusterStyle cache memberCounts ∧
    (∀ N, firstMemberCount memberCounts = some N → N ≠ 0 →
      (makeClusterStyle cache memberCounts).2.lookup (toString N) =
        (makeClusterStyle cache memberCounts).1) ∧
    (∀ k v, cache.lookup k = some v →
      (makeClusterStyle cache memberCounts).2.lookup k = some v) := by
  unfold makeClusterStyle
  cases hfc : firstMemberCount memberCounts with
  | none =>
    refine ⟨rfl, ?_, ?_⟩
    · intro N hN
      cases hN
    · intro k v hl
      simpa using hl
  | some size =>
    by_cases hz : size = 0
    · subst hz
      refine ⟨by simp, ?_, ?_⟩
      · intro N hN hNz
        injection hN with h
        omega
      · intro k v hl
        simpa using hl
    · simp only [if_neg hz]
      cases hl : cache.lookup (toString size) with
      | some st =>
        refine ⟨by simp [hz, hl], ?_, ?_⟩
        · intro N hN hNz
          injection hN with h
          subst h
          exact hl
        · intro k v hkv
          simpa using hkv
      | none =>
        have hself : ((toString size, computeStyle size) :: cache).lookup (toString size) =
            some (computeStyle size) := by
          rw [List.lookup_cons]
          simp
        refine ⟨by simp [hz, hself], ?_, ?_⟩
        · intro N hN hNz
          injection hN with h
          subst h
          exact hself
        · intro k v hkv
          have hkne : (k == toString size) = false := by
            refine beq_eq_false_iff_ne.mpr ?_
            intro he
            rw [he, hl] at hkv
            exact Option.noConfusion hkv
          show ((toString size, computeStyle size) :: cache).lookup k = some v
          rw [List.lookup_cons, hkne]
          exact hkv

/-- Witness for C8: a concrete cache holding the style for count 5 and a
feature whose first member carries count 7. -/
theorem makeClusterStyle_memoized_witness :
    (makeClusterStyle
        (makeClusterStyle [(toString 5, computeStyle 5)] [some 7]).2 [some 7] =
      makeClusterStyle [(toString 5, computeStyle 5)] [some 7]) ∧
    firstMemberCount [some 7] = some 7 ∧ (7 : Nat) ≠ 0 ∧
    ((makeClusterStyle [(toString 5, computeStyle 5)] [some 7]).2.lookup (toString 7) =
      (makeClusterStyle [(toString 5, computeStyle 5)] [some 7]).1) ∧
    List.lookup (toString 5) [(toString 5, computeStyle 5)] = some (computeStyle 5) ∧
    (makeClusterStyle [(toString 5, computeStyle 5)] [some 7]).2.lookup (toString 5) =
      some (computeStyle 5) :=
  ⟨(makeClusterStyle_memoized [(toString 5, computeStyle 5)] [some 7]).1,
   rfl, by decide,
   (makeClusterStyle_memoized [(toString 5, computeStyle 5)] [some 7]).2.1 7
     rfl (by decide),
   rfl,
   (makeClusterStyle_memoized [(toString 5, computeStyle 5)] [some 7]).2.2
     (toString 5) (computeStyle 5) rfl⟩

/-- Outcome of the getSDTV point fetch awaited inside villageClickEvent:
either a resolved list of records or a rejection carrying a message.
Records are modelled as strings; the empty string stands for a JavaScript
falsy array element, so the resp[0] truthiness test is kept. -/
inductive FetchOutcome where
  | ok (records : List String)
  | err (msg : String)
deriving DecidableEq

/-- Observable state of the identify interaction: whether villageClickEvent
is currently installed as a singleclick listener, plus counters and logs of
everything the handlers emit (pulse animations, getSDTV calls,
onPointSelected invocations, notifier warnings and errors). -/
structure IdentifyState where
  armed : Bool
  pulses : Nat
  fetches : Nat
  selected : List String
  warnings : List String
  errors : List String
deriving DecidableEq

/-- addIdentifyPointMode: installs villageClickEvent on singleclick. -/
def addIdentifyPointMode (s : IdentifyState) : IdentifyState :=
  { s with armed := true }

/-- One map singleclick carried to its settled outcome. The permanent
feedback handler registered by the map effect always plays one pulse
animation. If villageClickEvent is installed it also fires: it plays its
own pulse animation, issues the getSDTV fetch, then reports the first
record through onPointSelected when it is truthy, warns when the response
has no truthy first record, or reports a rejection message through the
error channel; its finally block always uninstalls the listener. -/
def mapClick (s : IdentifyState) (r : FetchOutcome) : IdentifyState :=
  let s1 := { s with pulses := s.pulses + 1 }
  if s.armed then
    let s2 := { s1 with pulses := s1.pulses + 1, fetches := s1.fetches + 1 }
    let s3 :=
      match r with
      | .ok records =>
        match records.head? with
        | some rec =>
          if rec ≠ "" then { s2 with selected := s2.selected ++ [rec] }
          else { s2 with warnings := s2.warnings ++ [noDataMsg] }
        | none => { s2 with warnings := s2.warnings ++ [noDataMsg] }
      | .err m => { s2 with errors := s2.errors ++ [m] }
    { s3 with armed := false }
  else s1

/-- C4: the identify interaction is single-shot per arming. After arm and
one settled click of any outcome the listener is uninstalled, and a second
click with no intervening arm only plays the permanent feedback animation:
no new onPointSelected call, no warning, no error and no identify fetch. -/
theorem identify_single_shot (s : IdentifyState) (r1 r2 : FetchOutcome) :
    (mapClick (addIdentifyPointMode s) r1).armed = false ∧
    mapClick (mapClick (addIdentifyPointMode s) r1) r2 =
      { mapClick (addIdentifyPointMode s) r1 with
        pulses := (mapClick (addIdentifyPointMode s) r1).pulses + 1 } := by
  have harm : (mapClick (addIdentifyPointMode s) r1).armed = false := by
    unfold mapClick addIdentifyPointMode
    rcases r1 with records | m
    · rcases records with _ | ⟨rec, rest⟩
      · rfl
      · by_cases hr : rec ≠ "" <;> simp [hr]
    · rfl
  have hgen : ∀ (t : IdentifyState) (r : FetchOutcome), t.armed = false →
      mapClick t r = { t with pulses := t.pulses + 1 } := by
    intro t r ht
    unfold mapClick
    simp [ht]
  exact ⟨harm, hgen _ r2 harm⟩

/-- ClusterSummaryItem after the Number conversions applied when features
are built: a longitude, a latitude and a count. -/
structure Agg where
  lon : Rat
  lat : Rat
  count : Nat
deriving DecidableEq

/-- A point feature of the cluster overlay source. Each rebuild of the
effect creates fresh Feature objects; object identity is modelled by the
gen tag, stamped from a counter that increases once per rebuild. -/
structure ClusterFeature where
  gen : Nat
  lon : Rat
  lat : Rat
  count : Nat
deriving DecidableEq

/-- A map layer as seen by the cluster pipeline: its name property, its
visibility and the point features its source holds. -/
structure MapLayer where
  name : Option String
  visible : Bool
  features : List ClusterFeature
deriving DecidableEq

/-- Component state touched by the cluster pipeline: the map's layer list,
the summary state, the held cluster-layer handle, the feature generation
counter and the messages sent to the notifier's error channel. -/
structure ClusterState where
  layers : List MapLayer
  summary : List Agg
  clusterLayer : Option MapLayer
  nextGen : Nat
  errors : List String
deriving DecidableEq

/-- Test used to find the existing overlay: layer.get "name" equals
"cluster-layer". -/
def isClusterNamed (l : MapLayer) : Bool :=
  l.name == some clusterLayerName

/-- isBirthCertificateLayerVisible: finds the layer named "Hospital Birth"
and reads its visibility, defaulting to false. -/
def isBirthVisible (layers : List MapLayer) : Bool :=
  match layers.find? (fun l => l.name == some birthLayerName) with
  | some l => l.visible
  | none => false

/-- One Feature built from a summary item, tagged with its count. -/
def mkClusterFeature (g : Nat) (a : Agg) : ClusterFeature :=
  { gen := g, lon := a.lon, lat := a.lat, count := a.count }

/-- The AnimatedCluster layer built from a summary list: named
"cluster-layer", visible, holding one tagged point feature per item. -/
def mkClusterLayer (g : Nat) (aggs : List Agg) : MapLayer :=
  { name := some clusterLayerName, visible := true,
    features := aggs.map (mkClusterFeature g) }

/-- The effect rebuilding the cluster overlay whenever summary changes:
any layer currently named "cluster-layer" is removed from the map first;
an empty summary then just clears the held handle; otherwise a fresh layer
with one feature per summary item is built, recorded in the handle, and
added to the map only when the "Hospital Birth" layer is visible. -/
def rebuildClusterLayer (s : ClusterState) : ClusterState :=
  let layers1 := s.layers.eraseP isClusterNamed
  if s.summary.isEmpty then
    { s with layers := layers1, clusterLayer := none }
  else
    let lyr := mkClusterLayer s.nextGen s.summary
    { s with
      layers := if isBirthVisible layers1 then layers1 ++ [lyr] else layers1,
      clusterLayer := some lyr,
      nextGen := s.nextGen + 1 }

/-- refreshClusterSummary when getClusterCount resolves: the stored summary
becomes the response when it is an array and the empty list otherwise
(a non-array resolution is modelled as none), after which the summary
effect reruns and rebuilds the overlay. -/
def refreshSuccess (s : ClusterState) (resp : Option (List Agg)) : ClusterState :=
  rebuildClusterLayer { s with summary := resp.getD [] }

/-- refreshClusterSummary when getClusterCount rejects: the catch block
only forwards the message to the notifier's error channel. -/
def refreshFailure (s : ClusterState) (msg : String) : ClusterState :=
  { s with errors := s.errors ++ [msg] }

/-- Erasing the first match from a list holding at most one match leaves a
list with no match. -/
theorem filter_eraseP_of_countP_le_one {α : Type} (p : α → Bool) (xs : List α)
    (h : xs.countP p ≤ 1) : (xs.eraseP p).filter p = [] := by
  induction xs with
  | nil => rfl
  | cons x xs ih =>
    by_cases hx : p x
    · rw [List.eraseP_cons_of_pos hx, List.filter_eq_nil_iff]
      rw [List.countP_cons_of_pos p xs hx] at h
      intro a ha hpa
      have : 0 < xs.countP p := List.countP_pos_iff.mpr ⟨a, ha, hpa⟩
      omega
    · rw [List.eraseP_cons_of_neg hx, List.filter_cons_of_neg hx]
      rw [List.countP_cons_of_neg p xs hx] at h
      exact ih h

/-- C6: a failed cluster refresh reports the message on the error channel
and leaves the stored summary, the map's layers and the held cluster-layer
handle exactly as they were: no partial update. -/
theorem refresh_failure_leaves_overlay_untouched (s : ClusterState) (msg : String) :
    (refreshFailure s msg).layers = s.layers ∧
    (refreshFailure s msg).summary = s.summary ∧
    (refreshFailure s msg).clusterLayer = s.clusterLayer ∧
    (refreshFailure s msg).errors = s.errors ++ [msg] :=
  ⟨rfl, rfl, rfl, rfl⟩

/-- C10: a refresh resolving with an empty list, or with a non-array value
stored as the empty list, removes any existing "cluster-layer" layer,
creates no new overlay layer and clears the held handle. Under the
reachable-state invariant that at most one layer carries the overlay name,
no layer of that name remains on the map. -/
theorem empty_refresh_clears_overlay (s : ClusterState)
    (hinv : s.layers.countP isClusterNamed ≤ 1) :
    refreshSuccess s none = refreshSuccess s (some []) ∧
    (refreshSuccess s (some [])).layers = s.layers.eraseP isClusterNamed ∧
    (refreshSuccess s (some [])).layers.filter isClusterNamed = [] ∧
    (refreshSuccess s (some [])).clusterLayer = none := by
  refine ⟨rfl, rfl, ?_, rfl⟩
  exact filter_eraseP_of_countP_le_one isClusterNamed s.layers hinv

/-- Witness for C10: a map holding one cluster overlay and one base layer. -/
theorem empty_refresh_clears_overlay_witness :
    (List.countP isClusterNamed
        [mkClusterLayer 0 [Agg.mk 1 2 3], MapLayer.mk none true []] ≤ 1) ∧
    (refreshSuccess
        (ClusterState.mk [mkClusterLayer 0 [Agg.mk 1 2 3], MapLayer.mk none true []]
          [Agg.mk 1 2 3] (some (mkClusterLayer 0 [Agg.mk 1 2 3])) 1 []) none =
      refreshSuccess
        (ClusterState.mk [mkClusterLayer 0 [Agg.mk 1 2 3], MapLayer.mk none true []]
          [Agg.mk 1 2 3] (some (mkClusterLayer 0 [Agg.mk 1 2 3])) 1 []) (some [])) ∧
    ((refreshSuccess
        (ClusterState.mk [mkClusterLayer 0 [Agg.mk 1 2 3], MapLayer.mk none true []]
          [Agg.mk 1 2 3] (some (mkClusterLayer 0 [Agg.mk 1 2 3])) 1 []) (some [])).layers =
      List.eraseP isClusterNamed
        [mkClusterLayer 0 [Agg.mk 1 2 3], MapLayer.mk none true []]) ∧
    ((refreshSuccess
        (ClusterState.mk [mkClusterLayer 0 [Agg.mk 1 2 3], MapLayer.mk none true []]
          [Agg.mk 1 2 3] (some (mkClusterLayer 0 [Agg.mk 1 2 3])) 1 []) (some [])).layers.filter
        isClusterNamed = []) ∧
    (refreshSuccess
        (ClusterState.mk [mkClusterLayer 0 [Agg.mk 1 2 3], MapLayer.mk none true []]
          [Agg.mk 1 2 3] (some (mkClusterLayer 0 [Agg.mk 1 2 3])) 1 []) (some [])).clusterLayer =
      none := by
  refine ⟨by decide, ?_⟩
  have h := empty_refresh_clears_overlay
    (ClusterState.mk [mkClusterLayer 0 [Agg.mk 1 2 3], MapLayer.mk none true []]
      [Agg.mk 1 2 3] (some (mkClusterLayer 0 [Agg.mk 1 2 3])) 1 []) (by decide)
  exact ⟨h.1, h.2.1, h.2.2.1, h.2.2.2⟩

/-- Erasing by a test disjoint from the searched one does not change what
find? returns. -/
theorem find?_eraseP_of_disjoint {α : Type} (p q : α → Bool) (xs : List α)
    (hpq : ∀ a, p a = true → q a = false) :
    (xs.eraseP p).find? q = xs.find? q := by
  induction xs with
  | nil => rfl
  | cons x xs ih =>
    by_cases hx : p x
    · rw [List.eraseP_cons_of_pos hx]
      have hqx : ¬ q x = true := by
        rw [hpq x hx]
        exact Bool.false_ne_true
      rw [List.find?_cons_of_neg xs hqx]
    · rw [List.eraseP_cons_of_neg hx]
      by_cases hq : q x
      · rw [List.find?_cons_of_pos xs hq, List.find?_cons_of_pos _ hq]
      · rw [List.find?_cons_of_neg xs hq, List.find?_cons_of_neg _ hq, ih]

/-- Removing the cluster overlay does not change the gating layer's
visibility: the two layer names differ. -/
theorem isBirthVisible_eraseP (xs : List MapLayer) :
    isBirthVisible (xs.eraseP isClusterNamed) = isBirthVisible xs := by
  unfold isBirthVisible
  rw [find?_eraseP_of_disjoint]
  intro a ha
  have hname : a.name = some clusterLayerName := by
    simpa [isClusterNamed] using ha
  rw [hname]
  decide

/-- Appending a freshly built cluster layer does not change the gating
layer's visibility either. -/
theorem isBirthVisible_append_cluster (xs : List MapLayer) (g : Nat) (aggs : List Agg) :
    isBirthVisible (xs ++ [mkClusterLayer g aggs]) = isBirthVisible xs := by
  unfold isBirthVisible
  rw [List.find?_append]
  have hone : List.find? (fun l => l.name == some birthLayerName) [mkClusterLayer g aggs] =
      none := rfl
  rw [hone]
  cases List.find? (fun l => l.name == some birthLayerName) xs <;> rfl

/-- The freshly built overlay layer passes the overlay-name test. -/
theorem isClusterNamed_mkClusterLayer (g : Nat) (aggs : List Agg) :
    isClusterNamed (mkClusterLayer g aggs) = true := rfl

/-- One successful refresh with a non-empty list, from a map whose gating
layer is visible: the old overlay is removed, a fresh one is appended. -/
theorem refreshSuccess_nonempty (t : ClusterState) (L : List Agg)
    (hL : L.isEmpty = false) (hvis : isBirthVisible t.layers = true) :
    refreshSuccess t (some L) =
      { t with
        layers := t.layers.eraseP isClusterNamed ++ [mkClusterLayer t.nextGen L],
        summary := L,
        clusterLayer := some (mkClusterLayer t.nextGen L),
        nextGen := t.nextGen + 1 } := by
  unfold refreshSuccess rebuildClusterLayer
  have hv : isBirthVisible (List.eraseP isClusterNamed t.layers) = true := by
    rw [isBirthVisible_eraseP]
    exact hvis
  simp [hL, hv]

/-- C3: cluster overlay replacement is total. From a visible gating layer
and a well-formed map (at most one overlay layer), two successive
refreshes resolving with non-empty lists L1 then L2 leave exactly one
layer named "cluster-layer" on the map, namely the one rebuilt from L2:
it holds exactly L2.length point features, each tagged with its
aggregate's count, and none of the features created for L1 remains. -/
theorem cluster_overlay_replacement (s : ClusterState) (L1 L2 : List Agg)
    (h1 : L1 ≠ []) (h2 : L2 ≠ [])
    (hb : isBirthVisible s.layers = true)
    (hinv : s.layers.countP isClusterNamed ≤ 1) :
    ((refreshSuccess s (some L1)).layers.filter isClusterNamed =
        [mkClusterLayer s.nextGen L1]) ∧
    ((refreshSuccess (refreshSuccess s (some L1)) (some L2)).layers.filter isClusterNamed =
        [mkClusterLayer (s.nextGen + 1) L2]) ∧
    (mkClusterLayer (s.nextGen + 1) L2).features.length = L2.length ∧
    ((mkClusterLayer (s.nextGen + 1) L2).features.map (fun f => f.count) =
        L2.map (fun a => a.count)) ∧
    (∀ f ∈ (mkClusterLayer (s.nextGen + 1) L2).features,
        f ∉ (mkClusterLayer s.nextGen L1).features) := by
  have hL1 : L1.isEmpty = false := by
    cases L1 with
    | nil => exact absurd rfl h1
    | cons a t => rfl
  have hL2 : L2.isEmpty = false := by
    cases L2 with
    | nil => exact absurd rfl h2
    | cons a t => rfl
  have hp1 := isClusterNamed_mkClusterLayer s.nextGen L1
  have hp2 := isClusterNamed_mkClusterLayer (s.nextGen + 1) L2
  have hfil : (s.layers.eraseP isClusterNamed).filter isClusterNamed = [] :=
    filter_eraseP_of_countP_le_one isClusterNamed s.layers hinv
  have hnomatch : ∀ b ∈ List.eraseP isClusterNamed s.layers, ¬ isClusterNamed b = true :=
    fun b hb' => List.filter_eq_nil_iff.mp hfil b hb'
  have hs1 := refreshSuccess_nonempty s L1 hL1 hb
  have hs1layers : (refreshSuccess s (some L1)).layers =
      s.layers.eraseP isClusterNamed ++ [mkClusterLayer s.nextGen L1] := by
    rw [hs1]
  have hs1gen : (refreshSuccess s (some L1)).nextGen = s.nextGen + 1 := by
    rw [hs1]
  have hc1 : (refreshSuccess s (some L1)).layers.filter isClusterNamed =
      [mkClusterLayer s.nextGen L1] := by
    rw [hs1layers, List.filter_append, hfil, List.filter_cons_of_pos hp1]
    rfl
  have hvis1 : isBirthVisible (refreshSuccess s (some L1)).layers = true := by
    rw [hs1layers, isBirthVisible_append_cluster, isBirthVisible_eraseP]
    exact hb
  have hs2 := refreshSuccess_nonempty (refreshSuccess s (some L1)) L2 hL2 hvis1
  have herase2 : (refreshSuccess s (some L1)).layers.eraseP isClusterNamed =
      s.layers.eraseP isClusterNamed := by
    rw [hs1layers, List.eraseP_append_right _ hnomatch,
      List.eraseP_cons_of_pos hp1]
    simp
  have hc2 : (refreshSuccess (refreshSuccess s (some L1)) (some L2)).layers.filter
      isClusterNamed = [mkClusterLayer (s.nextGen + 1) L2] := by
    rw [hs2]
    show ((refreshSuccess s (some L1)).layers.eraseP isClusterNamed ++
        [mkClusterLayer (refreshSuccess s (some L1)).nextGen L2]).filter isClusterNamed = _
    rw [herase2, hs1gen, List.filter_append, hfil, List.filter_cons_of_pos hp2]
    rfl
  refine ⟨hc1, hc2, by simp [mkClusterLayer], ?_, ?_⟩
  · simp [mkClusterLayer, mkClusterFeature]
  · intro f hf hmem
    rcases List.mem_map.mp hf with ⟨a, _, rfl⟩
    rcases List.mem_map.mp hmem with ⟨b, _, heq⟩
    have hgen : (mkClusterFeature s.nextGen b).gen =
        (mkClusterFeature (s.nextGen + 1) a).gen := by rw [heq]
    simp [mkClusterFeature] at hgen

/-- Witness layer for the gating base layer. -/
def birthDemo : MapLayer :=
  { name := some birthLayerName, visible := true, features := [] }

/-- Witness initial state for the cluster replacement theorem. -/
def c3StateDemo : ClusterState :=
  { layers := [birthDemo], summary := [], clusterLayer := none, nextGen := 0, errors := [] }

/-- First witness aggregate list (size one). -/
def aggsOneDemo : List Agg := [Agg.mk 1 2 3]

/-- Second witness aggregate list (size two). -/
def aggsTwoDemo : List Agg := [Agg.mk 4 5 6, Agg.mk 7 8 9]

/-- Witness for C3 on a concrete map with a visible gating layer. -/
theorem cluster_overlay_replacement_witness :
    (aggsOneDemo ≠ [] ∧ aggsTwoDemo ≠ [] ∧
     isBirthVisible c3StateDemo.layers = true ∧
     c3StateDemo.layers.countP isClusterNamed ≤ 1) ∧
    (((refreshSuccess c3StateDemo (some aggsOneDemo)).layers.filter isClusterNamed =
        [mkClusterLayer c3StateDemo.nextGen aggsOneDemo]) ∧
     ((refreshSuccess (refreshSuccess c3StateDemo (some aggsOneDemo))
          (some aggsTwoDemo)).layers.filter isClusterNamed =
        [mkClusterLayer (c3StateDemo.nextGen + 1) aggsTwoDemo]) ∧
     (mkClusterLayer (c3StateDemo.nextGen + 1) aggsTwoDemo).features.length =
        aggsTwoDemo.length ∧
     ((mkClusterLayer (c3StateDemo.nextGen + 1) aggsTwoDemo).features.map
          (fun f => f.count) = aggsTwoDemo.map (fun a => a.count)) ∧
     (∀ f ∈ (mkClusterLayer (c3StateDemo.nextGen + 1) aggsTwoDemo).features,
        f ∉ (mkClusterLayer c3StateDemo.nextGen aggsOneDemo).features)) :=
  ⟨⟨by decide, by decide, by decide, by decide⟩,
   cluster_overlay_replacement c3StateDemo aggsOneDemo aggsTwoDemo
     (by decide) (by decide) (by decide) (by decide)⟩

/-- A linear ring of projected (x, y) coordinates. -/
abbrev LinearRing := List (Rat × Rat)

/-- Polygon coordinates: a list of rings. -/
abbrev PolyCoords := List LinearRing

/-- MultiPolygon coordinates as returned by getCoordinates. -/
abbrev MPolyCoords := List PolyCoords

/-- A CropFilter instance: identified for object identity (removeFilter
removes by identity) and carrying the multipolygon it masks with. -/
structure CropF where
  id : Nat
  coords : MPolyCoords
deriving DecidableEq

/-- A map layer as seen by the clip pipeline: identity, name property and
the filters attached to it. -/
structure ClipLayer where
  id : Nat
  name : Option String
  filters : List CropF
deriving DecidableEq

/-- Component state touched by clip: the map's layers, the handle to the
active boundary outline layer, the recorded active crop filter, and a
counter allocating fresh object identities. -/
structure ClipState where
  layers : List ClipLayer
  clippedBoundary : Option Nat
  navigationCropFilter : Option CropF
  nextId : Nat
deriving DecidableEq

/-- The test guarding the mask loop: nm && skipClipLayerNames.includes(nm).
A missing name or the empty string is JavaScript falsy, so such layers are
never skipped. -/
def skipsClip (skipNames : List String) (nm : Option String) : Bool :=
  match nm with
  | some n => (!(n == "")) && skipNames.contains n
  | none => false

/-- The coords variable after the forEach over the read features: every
iteration overwrites it with that feature's multipolygon coordinates, so
the last feature wins and an empty feature list leaves the initial empty
array in place. -/
def lastGeomCoords (fts : List MPolyCoords) : MPolyCoords :=
  fts.foldl (fun _ c => c) []

/-- lyr.removeFilter(navigationCropFilter): removes the previously active
crop filter from a layer's filter list when one is recorded. -/
def removeFilterFrom (fs : List CropF) (old : Option CropF) : List CropF :=
  match old with
  | some f => fs.erase f
  | none => fs

/-- The crop filter a clip call constructs (fresh identity, wrapping the
multipolygon derived from the fetched geometry) and sets active. -/
def cropOf (s : ClipState) (boundaryGeoms : List MPolyCoords) : CropF :=
  { id := s.nextId + 1, coords := lastGeomCoords boundaryGeoms }

/-- The outline layer a clip call builds: fresh identity, named
"navigation-boundary". -/
def outlineOf (s : ClipState) : ClipLayer :=
  { id := s.nextId, name := some boundaryLayerName, filters := [] }

/-- clip(body) from the point its boundary fetch resolved, parametrized by
the multipolygon geometries readFeatures produced from the payload: the
previously active outline layer (if any) has its source cleared and is
removed; a fresh outline layer is built and added; a crop filter over the
last feature's coordinates is constructed and activated; every layer then
on the map whose truthy name is not in the exemption list has the old
filter removed and the new one attached; the new layer and filter are
recorded as active. No step is guarded on the geometry being non-empty. -/
def clip (s : ClipState) (skipNames : List String) (boundaryGeoms : List MPolyCoords) :
    ClipState :=
  let layers1 :=
    match s.clippedBoundary with
    | some cid => s.layers.eraseP (fun l => l.id == cid)
    | none => s.layers
  let layers2 := layers1 ++ [outlineOf s]
  let crop := cropOf s boundaryGeoms
  let layers3 := layers2.map (fun l =>
    if skipsClip skipNames l.name then l
    else { l with filters := removeFilterFrom l.filters s.navigationCropFilter ++ [crop] })
  { layers := layers3,
    clippedBoundary := some (outlineOf s).id,
    navigationCropFilter := some crop,
    nextId := s.nextId + 2 }

/-- The layer list a clip call leaves on the map, written out. -/
theorem clip_layers_eq (s : ClipState) (skipNames : List String)
    (bg : List MPolyCoords) :
    (clip s skipNames bg).layers =
      ((match s.clippedBoundary with
        | some cid => s.layers.eraseP (fun l => l.id == cid)
        | none => s.layers) ++ [outlineOf s]).map (fun l =>
          if skipsClip skipNames l.name then l
          else { l with filters :=
            removeFilterFrom l.filters s.navigationCropFilter ++ [cropOf s bg] }) := rfl

/-- C9: a layer with no name property is never exempt: after clip, every
unnamed layer on the map carries the new mask filter, whatever the
exemption list holds. -/
theorem clip_unnamed_never_exempt (s : ClipState) (skipNames : List String)
    (bg : List MPolyCoords) :
    ∀ l ∈ (clip s skipNames bg).layers, l.name = none → cropOf s bg ∈ l.filters := by
  intro l hl hname
  rw [clip_layers_eq] at hl
  rcases List.mem_map.mp hl with ⟨l0, hl0, rfl⟩
  by_cases hskip : skipsClip skipNames l0.name
  · rw [if_pos hskip] at hname
    rw [hname] at hskip
    exact absurd hskip (by simp [skipsClip])
  · rw [if_neg hskip]
    simp

/-- The state used to evaluate clip on an empty geometry payload: one
unnamed, unexempt base layer, nothing clipped yet. -/
def clipEmptyDemoState : ClipState :=
  { layers := [ClipLayer.mk 0 none []], clippedBoundary := none,
    navigationCropFilter := none, nextId := 1 }

/-- C1, evaluated: when the boundary fetch resolves with no geometry (an
empty feature collection, so readFeatures yields no features), clip still
builds and adds the outline layer, still constructs a crop filter over the
empty multipolygon, records it active, and attaches that degenerate empty
mask to the non-exempt base layer — the safeguard the specification
requires for steps 3 to 6 is absent from the code. -/
theorem clip_empty_geometry_applies_degenerate_mask :
    (clip clipEmptyDemoState defaultSkipClipLayerNames []).layers =
      [ClipLayer.mk 0 none [CropF.mk 2 []],
       ClipLayer.mk 1 (some boundaryLayerName) [CropF.mk 2 []]] ∧
    (clip clipEmptyDemoState defaultSkipClipLayerNames []).navigationCropFilter =
      some (CropF.mk 2 []) := by decide

/-- Unfolding the skip test on a truthy name. -/
theorem skipsClip_some_iff (skipNames : List String) (n : String) :
    skipsClip skipNames (some n) = true ↔ (n ≠ "" ∧ n ∈ skipNames) := by
  unfold skipsClip
  rw [Bool.and_eq_true]
  constructor
  · rintro ⟨hne, hmem⟩
    refine ⟨?_, ?_⟩
    · intro he
      subst he
      simp at hne
    · simpa [List.contains_eq_any_beq, List.any_eq_true] using hmem
  · rintro ⟨hne, hmem⟩
    refine ⟨by simpa using hne, ?_⟩
    simpa [List.contains_eq_any_beq, List.any_eq_true] using hmem

/-- C5: the exemption invariant. After a successful clip with an exemption
list that is free of the empty string, over a map whose attached filters
all predate this call: a layer whose name is in the exemption list never
carries the newly derived mask filter, and every other layer on the map
does carry it. -/
theorem clip_exemption_invariant (s : ClipState) (skipNames : List String)
    (bg : List MPolyCoords)
    (hnil : "" ∉ skipNames)
    (hfresh : ∀ l ∈ s.layers, ∀ f ∈ l.filters, f.id < s.nextId) :
    ∀ l ∈ (clip s skipNames bg).layers,
      ((∃ nm, l.name = some nm ∧ nm ∈ skipNames) → cropOf s bg ∉ l.filters) ∧
      ((¬ ∃ nm, l.name = some nm ∧ nm ∈ skipNames) → cropOf s bg ∈ l.filters) := by
  intro l hl
  rw [clip_layers_eq] at hl
  rcases List.mem_map.mp hl with ⟨l0, hl0, rfl⟩
  have hl0src : l0 ∈ s.layers ∨ l0 = outlineOf s := by
    rcases List.mem_append.mp hl0 with h | h
    · left
      cases hcb : s.clippedBoundary with
      | some cid =>
        rw [hcb] at h
        exact List.eraseP_subset s.layers h
      | none =>
        rw [hcb] at h
        exact h
    · right
      simpa using h
  have hnotin : cropOf s bg ∉ l0.filters := by
    rcases hl0src with hmem | hout
    · intro hcontra
      have hlt := hfresh l0 hmem (cropOf s bg) hcontra
      have hid : (cropOf s bg).id = s.nextId + 1 := rfl
      rw [hid] at hlt
      omega
    · rw [hout]
      intro hcontra
      simp [outlineOf] at hcontra
  by_cases hskip : skipsClip skipNames l0.name
  · rw [if_pos hskip]
    have hex : ∃ nm, l0.name = some nm ∧ nm ∈ skipNames := by
      cases hn : l0.name with
      | none =>
        rw [hn] at hskip
        simp [skipsClip] at hskip
      | some n =>
        rw [hn] at hskip
        exact ⟨n, rfl, ((skipsClip_some_iff skipNames n).mp hskip).2⟩
    exact ⟨fun _ => hnotin, fun hne => absurd hex hne⟩
  · rw [if_neg hskip]
    refine ⟨?_, fun _ => by simp⟩
    rintro ⟨nm, hnm, hmem⟩
    simp only at hnm
    have hne : nm ≠ "" := by
      intro he
      subst he
      exact hnil hmem
    have : skipsClip skipNames l0.name = true := by
      rw [hnm]
      exact (skipsClip_some_iff skipNames nm).mpr ⟨hne, hmem⟩
    exact absurd this hskip

/-- Witness initial state for the clip theorems: one exempt layer named
"Aerial" and one unnamed base layer, no active clip. -/
def clipDemoState : ClipState :=
  { layers := [ClipLayer.mk 0 (some aerialName) [], ClipLayer.mk 1 none []],
    clippedBoundary := none, navigationCropFilter := none, nextId := 2 }

/-- A single square polygon boundary used by the clip witnesses. -/
def demoSquare : MPolyCoords := [[[(0, 0), (4, 0), (4, 4), (0, 4), (0, 0)]]]

/-- Witness for C5 on a concrete clip call: the exempt layer ends up
without the new mask, the unnamed base layer ends up with it. -/
theorem clip_exemption_invariant_witness :
    "" ∉ defaultSkipClipLayerNames ∧
    ClipLayer.mk 0 (some aerialName) [] ∈
      (clip clipDemoState defaultSkipClipLayerNames [demoSquare]).layers ∧
    cropOf clipDemoState [demoSquare] ∉
      (ClipLayer.mk 0 (some aerialName) []).filters ∧
    ClipLayer.mk 1 none [cropOf clipDemoState [demoSquare]] ∈
      (clip clipDemoState defaultSkipClipLayerNames [demoSquare]).layers ∧
    cropOf clipDemoState [demoSquare] ∈
      (ClipLayer.mk 1 none [cropOf clipDemoState [demoSquare]]).filters := by
  refine ⟨by decide, by decide, ?_, by decide, ?_⟩
  · exact (clip_exemption_invariant clipDemoState defaultSkipClipLayerNames [demoSquare]
      (by decide) (by decide) (ClipLayer.mk 0 (some aerialName) []) (by decide)).1
      ⟨aerialName, rfl, by decide⟩
  · exact (clip_exemption_invariant clipDemoState defaultSkipClipLayerNames [demoSquare]
      (by decide) (by decide)
      (ClipLayer.mk 1 none [cropOf clipDemoState [demoSquare]]) (by decide)).2
      (by rintro ⟨nm, hnm, hmem⟩; cases hnm)

/-- Witness for C9 on the same concrete clip call: the unnamed layer got
the mask even though the exemption list is non-empty. -/
theorem clip_unnamed_never_exempt_witness :
    ClipLayer.mk 1 none [cropOf clipDemoState [demoSquare]] ∈
      (clip clipDemoState defaultSkipClipLayerNames [demoSquare]).layers ∧
    (ClipLayer.mk 1 none [cropOf clipDemoState [demoSquare]]).name = none ∧
    cropOf clipDemoState [demoSquare] ∈
      (ClipLayer.mk 1 none [cropOf clipDemoState [demoSquare]]).filters :=
  ⟨by decide, rfl,
   clip_unnamed_never_exempt clipDemoState defaultSkipClipLayerNames [demoSquare]
     (ClipLayer.mk 1 none [cropOf clipDemoState [demoSquare]]) (by decide) rfl⟩

/-- A layer as seen by the legend builder: its visibility, the LAYERS
parameter its source exposes (none when the source or the parameter is
missing) and the source's URL list (none when the source has no getUrls). -/
structure WmsLayer where
  visible : Bool
  layersParam : Option String
  sourceUrls : Option (List String)
deriving DecidableEq

/-- How one legend-blob fetch settles: an object URL made from the blob,
or a rejection. -/
inductive LegendFetch where
  | ok (objectUrl : String)
  | failed
deriving DecidableEq

/-- The eligibility test and URL construction for one visible layer:
LAYERS && urls && urls[0] must all be truthy, in which case the legend
URL is built by the host-supplied formatter. -/
def legendUrlFor (mkUrl : String → String → String) (l : WmsLayer) : Option String :=
  match l.layersParam, l.sourceUrls with
  | some lp, some us =>
    if lp == "" then none
    else
      match us.head? with
      | some u => if u == "" then none else some (mkUrl u lp)
      | none => none
  | _, _ => none

/-- One per-layer promise settled: a fulfilled fetch yields its object
URL, a rejected one is caught and mapped to the empty string. -/
def settleLegend (loader : String → LegendFetch) (u : String) : String :=
  match loader u with
  | .ok s => s
  | .failed => ""

/-- buildLegendsForVisibleWmsLayers: enumerate visible layers, keep the
eligible ones in order, settle all their fetches, then drop the falsy
entries (the caught failures) and replace the displayed list with the
result. -/
def buildLegendsForVisibleWmsLayers (mkUrl : String → String → String)
    (loader : String → LegendFetch) (layers : List WmsLayer) : List String :=
  (((layers.filter (fun l => l.visible)).filterMap (legendUrlFor mkUrl)).map
      (settleLegend loader)).filter (fun s => !(s == ""))

/-- The legend list as the specification words it: one entry per visible
layer that is eligible and whose fetch succeeded, in enumeration order. -/
def legendSpecList (mkUrl : String → String → String)
    (loader : String → LegendFetch) (layers : List WmsLayer) : List String :=
  (layers.filter (fun l => l.visible)).filterMap (fun l =>
    (legendUrlFor mkUrl l).bind (fun u =>
      match loader u with
      | .ok s => some s
      | .failed => none))

/-- Settling then dropping falsy entries equals keeping the successes,
provided no success is the empty string. -/
theorem settle_filter_eq_filterMap (loader : String → LegendFetch)
    (hok : ∀ u s, loader u = .ok s → s ≠ "") (us : List String) :
    (us.map (settleLegend loader)).filter (fun s => !(s == "")) =
      us.filterMap (fun u =>
        match loader u with
        | .ok s => some s
        | .failed => none) := by
  induction us with
  | nil => rfl
  | cons u us ih =>
    cases hu : loader u with
    | ok s =>
      have hs : s ≠ "" := hok u s hu
      simp [settleLegend, hu, List.filterMap_cons, List.filter_cons, hs, ih]
    | failed =>
      simp [settleLegend, hu, List.filterMap_cons, List.filter_cons, ih]

/-- C7: the rebuilt legend list is exactly one entry per visible layer
that exposes both a queryable identifier and a source URL and whose fetch
succeeded, in the order the visible layers were enumerated; ineligible
layers and rejected fetches are omitted without affecting the rest.
The hypothesis states that a fulfilled fetch yields a non-empty object
URL, as createObjectURL guarantees. -/
theorem legend_builder_fault_tolerance (mkUrl : String → String → String)
    (loader : String → LegendFetch) (layers : List WmsLayer)
    (hok : ∀ u s, loader u = .ok s → s ≠ "") :
    buildLegendsForVisibleWmsLayers mkUrl loader layers =
      legendSpecList mkUrl loader layers := by
  unfold buildLegendsForVisibleWmsLayers legendSpecList
  rw [← List.filterMap_filterMap]
  exact settle_filter_eq_filterMap loader hok _

/-- Legend URL formatter used by the witness. -/
def demoMkUrl : String → String → String := fun u lp => u ++ lp

/-- Source URL of the witness layers. -/
def demoSrcUrl : String := "http://wms.example/"

/-- LAYERS parameter whose legend fetch succeeds in the witness. -/
def demoLayerA : String := "layerA"

/-- LAYERS parameter whose legend fetch rejects in the witness. -/
def demoLayerB : String := "layerB"

/-- Object URL produced for the successful witness fetch. -/
def demoBlobUrl : String := "blob:demo-1"

/-- Witness loader: succeeds on the first layer's legend URL only. -/
def demoLoader : String → LegendFetch := fun u =>
  if u == demoMkUrl demoSrcUrl demoLayerA then .ok demoBlobUrl else .failed

/-- Witness layer set: an eligible success, an eligible rejection, an
invisible layer and a visible layer with no queryable identifier. -/
def demoWmsLayers : List WmsLayer :=
  [WmsLayer.mk true (some demoLayerA) (some [demoSrcUrl]),
   WmsLayer.mk true (some demoLayerB) (some [demoSrcUrl]),
   WmsLayer.mk false (some demoLayerA) (some [demoSrcUrl]),
   WmsLayer.mk true none (some [demoSrcUrl])]

/-- Witness for C7: on the concrete batch, the rebuilt list keeps exactly
the one successful eligible layer's entry. -/
theorem legend_builder_fault_tolerance_witness :
    buildLegendsForVisibleWmsLayers demoMkUrl demoLoader demoWmsLayers =
      legendSpecList demoMkUrl demoLoader demoWmsLayers ∧
    legendSpecList demoMkUrl demoLoader demoWmsLayers = [demoBlobUrl] := by
  constructor
  · refine legend_builder_fault_tolerance demoMkUrl demoLoader demoWmsLayers ?_
    intro u s h
    unfold demoLoader at h
    by_cases hc : (u == demoMkUrl demoSrcUrl demoLayerA) = true
    · rw [if_pos hc] at h
      injection h with h'
      subst h'
      decide
    · rw [if_neg hc] at h
      cases h
  · decide

end GisMap
